import Mathlib

/-!
Verification development for the lead-enrichment repository.

The Lean definitions below are shallow embeddings of the Python source:

* `src/src/orchestrator/handler.py` — orchestration entry point
  (`lambda_handler`, `start_enrichment_job`, `fetch_salesforce_leads`,
  `start_ecs_workers`);
* `src/src/workers/enrichment_worker.py` — polling worker
  (`process_lead`, `scrape_website`, `extract_information`, `check_cache`,
  `cache_content`, `update_salesforce_lead`, `convert_floats_to_decimal`,
  `main` loop);
* `src/src/workers/enrichment_worker_ecs_optimized.py` — event-triggered
  worker (`extract_information`, `convert_floats_to_decimal` are identical
  to the polling variant where relevant below);
* `src/scripts/monitor.py` — monitoring dashboard (`print_progress_bar`).

External effects (Salesforce, SQS, ECS, DynamoDB, the AI service and the
browser) are modelled by passing their outcomes in as explicit data; Python
strings are modelled as `String` or as `List Char` (Python `str` indexes by
code point, so `List Char` operations match Python slicing exactly).
-/

namespace LeadEnrichment

/-! ## Orchestrator (`src/src/orchestrator/handler.py`) -/

namespace Orchestrator

/-- Job statuses used by `handler.py`. -/
inductive JobStatus
  | fetching_leads
  | queuing_leads
  | processing
  | failed
  deriving DecidableEq, Repr

/-- The Job record in the jobs table, as written by `start_enrichment_job`.
Fields start absent and are set by the successive `update_item` calls. -/
structure JobRecord where
  status : JobStatus
  leads_found : Option Nat := none
  leads_queued : Option Nat := none
  workers_started : Option Nat := none
  error : Option String := none
  deriving DecidableEq, Repr

/-- Outcome of the `ecs.run_task` call inside `start_ecs_workers`:
either a response with `tasks` and `failures` lists (modelled by their
lengths) or a raised exception with a message. -/
inductive EcsOutcome
  | ok (tasks : Nat) (failures : Nat)
  | raiseErr (msg : String)
  deriving DecidableEq, Repr

/-- `start_ecs_workers(count)` from `handler.py` lines 267-300:
`safe_count = min(count, 10)` is passed to `ecs.run_task`; the function
returns `len(response.tasks)` on success and — because the whole body is
wrapped in `try/except` that returns 0 — returns `0` when the ECS call
raises. -/
def start_ecs_workers (count : Nat) (outcome : EcsOutcome) : Nat :=
  let _safe_count := min count 10
  match outcome with
  | .ok tasks _failures => tasks
  | .raiseErr _ => 0

/-- `optimal_workers` computed in `start_enrichment_job` line 162:
`min(max(2, queued_count // 500), 10)`. -/
def optimal_workers (queued_count : Nat) : Nat :=
  min (max 2 (queued_count / 500)) 10

/-- Injected outcomes of the external calls made by `start_enrichment_job`.
Leads are modelled by their count: the contents of a lead never influence
the orchestrator's control flow.  `sendError = some (i, m)` means the
`sqs.send_message` call for the lead at index `i` raises with message `m`
(provided `i` is within the fetched range). -/
structure OrchWorld where
  fetchOutcome : Except String Nat
  sendError : Option (Nat × String)
  ecsOutcome : EcsOutcome
  deriving Repr

/-- The value produced by `start_enrichment_job`: either the 200 success
payload of lines 181-191 or a re-raised exception. -/
inductive OrchOutcome
  | ok (statusCode : Nat) (status : String)
      (leads_found leads_queued workers_started : Nat)
  | raised (msg : String)
  deriving DecidableEq, Repr

/-- `start_enrichment_job` from `handler.py` lines 95-205, as a function
from the injected call outcomes to (result, final job record).  The
`except` block at lines 193-205 sets status `failed` and the error text and
re-raises; note that a failing `ecs.run_task` never reaches that block
because `start_ecs_workers` catches it internally. -/
def start_enrichment_job (w : OrchWorld) : OrchOutcome × JobRecord :=
  let job0 : JobRecord := { status := .fetching_leads }
  match w.fetchOutcome with
  | .error e => (.raised e, { job0 with status := .failed, error := some e })
  | .ok leadsFound =>
    let job1 : JobRecord :=
      { job0 with status := .queuing_leads, leads_found := some leadsFound }
    match w.sendError with
    | some (i, m) =>
      if i < leadsFound then
        (.raised m, { job1 with status := .failed, error := some m })
      else
        let queued := leadsFound
        let workers := start_ecs_workers (optimal_workers queued) w.ecsOutcome
        let job2 : JobRecord :=
          { job1 with status := .processing, leads_queued := some queued,
                      workers_started := some workers }
        (.ok 200 "processing" leadsFound queued workers, job2)
    | none =>
      let queued := leadsFound
      let workers := start_ecs_workers (optimal_workers queued) w.ecsOutcome
      let job2 : JobRecord :=
        { job1 with status := .processing, leads_queued := some queued,
                    workers_started := some workers }
      (.ok 200 "processing" leadsFound queued workers, job2)

/-- Invocation shapes accepted by `lambda_handler` (`handler.py` lines
53-83): a scheduled event (`source == 'aws.events'`) or a direct parameter
object (the base64 shape decodes to the direct shape). -/
inductive OrchEvent
  | scheduled
  | direct (limit : Option Int) (update_salesforce : Bool)
  deriving DecidableEq, Repr

/-- The parameter object passed to `start_enrichment_job`. -/
structure Params where
  update_salesforce : Bool
  limit : Option Int
  deriving DecidableEq, Repr

/-- Parameter extraction in `lambda_handler`: a scheduled event uses
`{'update_salesforce': True, 'limit': 10000}` (lines 57-60); a direct
event copies `limit` into the params only when it is truthy
(`if limit:` at line 80, so `None` and `0` are both dropped). -/
def extract_params : OrchEvent → Params
  | .scheduled => ⟨true, some 10000⟩
  | .direct l u =>
    ⟨u, match l with
        | some v => if v ≠ 0 then some v else none
        | none => none⟩

/-- The limit used by `fetch_salesforce_leads` (`handler.py` line 211):
`parameters.get('limit', 10000)` — the default 10,000 applies whenever the
params carry no limit. -/
def fetch_limit (p : Params) : Int :=
  p.limit.getD 10000

/-- The `LIMIT` clause appended to the SOQL query (`handler.py` lines
226-227): `if limit: query += f" LIMIT {limit}"`.  Modelled as the
appended limit value: `some n` means ` LIMIT n` is appended, `none` means
no `LIMIT` clause is appended. -/
def appended_limit (p : Params) : Option Int :=
  let l := fetch_limit p
  if l ≠ 0 then some l else none

end Orchestrator

/-! ## Workers (`src/src/workers/enrichment_worker.py` and
`src/src/workers/enrichment_worker_ecs_optimized.py`) -/

namespace Worker

/-- A followed contact/about page collected by `scrape_website`:
`{'url': href, 'content': <innerText>}`.  Python `str` values are modelled
as `List Char` so that slicing matches Python code-point slicing. -/
structure PageEntry where
  url : List Char
  content : List Char
  deriving DecidableEq, Repr

/-- The result shape returned by `scrape_website` (both variants):
`{'url', 'main_content', 'additional_pages', 'scraped_at'}`.  The
timestamp is modelled in whole seconds. -/
structure ScrapedData where
  url : List Char
  main_content : List Char
  additional_pages : List PageEntry
  scraped_at : Int
  deriving DecidableEq, Repr

/-- The `all_content` accumulation at the top of `extract_information`
(both variants): starts from `main_content` and appends
`"\n\n" + page['content']` for each additional page, in order. -/
def all_content (d : ScrapedData) : List Char :=
  d.additional_pages.foldl
    (fun acc p => acc ++ ('\n' :: '\n' :: p.content)) d.main_content

/-- The flattened additional-page text that `all_content` appends after
the main content (each page contributes `"\n\n" + content`). -/
def pagesBlob : List PageEntry → List Char
  | [] => []
  | p :: ps => ('\n' :: '\n' :: p.content) ++ pagesBlob ps

/-- The website-content text inserted into the AI prompt:
`{all_content[:3000]}` (`enrichment_worker.py` line 271,
`enrichment_worker_ecs_optimized.py` line 237).  The slice is taken from
the already-concatenated `all_content`. -/
def prompt_content (d : ScrapedData) : List Char :=
  (all_content d).take 3000

/-! ### Website content cache (`check_cache` / `cache_content`, identical
in both variants) -/

/-- A cache-table item: `{'website': ..., 'content': ..., 'cached_at': ...}`.
Timestamps are modelled in whole seconds. -/
structure CacheEntry where
  content : ScrapedData
  cached_at : Int
  deriving DecidableEq, Repr

/-- The freshness test of `check_cache` (`enrichment_worker.py` lines
322-324): `(datetime.now(timezone.utc) - cached_time).days < 1`.  Python's
`timedelta.days` is the elapsed time floor-divided by one day, so with
timestamps in seconds the test is `⌊(now - cached_at) / 86400⌋ < 1`
(`Int.fdiv` is floor division). -/
def cache_fresh (cached_at now : Int) : Bool :=
  (now - cached_at).fdiv 86400 < 1

/-- `check_cache(website)`: return the entry's content when an entry for
the website exists and is fresh, otherwise `None`. -/
def check_cache (entry : Option CacheEntry) (now : Int) : Option ScrapedData :=
  match entry with
  | none => none
  | some e => if cache_fresh e.cached_at now then some e.content else none

/-- Observable behaviour of the cache-lookup/scrape step of `process_lead`:
whether `scrape_website` was invoked, the content the pipeline continues
with, and the cache entry for this website afterwards. -/
structure CacheStepTrace where
  scraped : Bool
  data : Option ScrapedData
  cacheAfter : Option CacheEntry
  deriving DecidableEq, Repr

/-- The cache-lookup/scrape step of `process_lead` (both variants, lines
97-111): fresh cached content is used without scraping; otherwise the site
is scraped and a successful scrape is stored via `cache_content`, whose
`put_item` under the same website key overwrites any existing entry (it
never deletes it); a failed scrape leaves the old entry in place. -/
def cache_step (entry : Option CacheEntry) (now : Int)
    (scrape_result : Option ScrapedData) : CacheStepTrace :=
  match check_cache entry now with
  | some c => ⟨false, some c, entry⟩
  | none =>
    match scrape_result with
    | some d => ⟨true, some d, some ⟨d, now⟩⟩
    | none => ⟨true, none, entry⟩

/-! ### Scrape retry loop (`scrape_website`, polling variant) -/

/-- Outcome of a single browser attempt inside `scrape_website`: either
the scraped result or a raised exception with `str(e)` as message. -/
inductive AttemptOutcome
  | ok (data : ScrapedData)
  | fail (errMsg : String)
  deriving DecidableEq, Repr

/-- The `retryable_errors` list of `scrape_website` (polling variant,
lines 234-238). -/
def retryable_errors : List String :=
  ["timeout", "net::err_cert_date_invalid", "net::err_connection_refused",
   "net::err_connection_timed_out", "net::err_name_not_resolved",
   "connection closed", "connection reset"]

/-- `needle` is an initial segment of `hay` (helper for Python's substring
containment test `a in b`). -/
def startsWithChars : List Char → List Char → Bool
  | [], _ => true
  | _ :: _, [] => false
  | a :: as, b :: bs => a == b && startsWithChars as bs

/-- Python's `needle in hay` substring containment on code points. -/
def hasSubChars (needle : List Char) : List Char → Bool
  | [] => startsWithChars needle []
  | c :: rest => startsWithChars needle (c :: rest) || hasSubChars needle rest

/-- Lowercased code points of a Python string (`s.lower()`). -/
def lowerChars (s : String) : List Char :=
  s.toList.map Char.toLower

/-- The retryability test at line 240:
`any(retry_err.lower() in error_msg.lower() for retry_err in retryable_errors)`. -/
def is_retryable (error_msg : String) : Bool :=
  retryable_errors.any fun retry_err =>
    hasSubChars (lowerChars retry_err) (lowerChars error_msg)

/-- Trace of one `scrape_website` run: the page-load timeout (ms) set for
each attempt actually made, the backoff delays (seconds) actually slept
between attempts, and the returned value. -/
structure ScrapeTrace where
  timeouts : List Nat
  delays : List Nat
  result : Option ScrapedData
  deriving DecidableEq, Repr

/-- Per-attempt page-load timeout, line 186: `20000 + attempt * 10000`. -/
def attempt_timeout (attempt : Nat) : Nat := 20000 + attempt * 10000

/-- Backoff before the next attempt, line 247: `2 ** attempt` seconds. -/
def backoff_seconds (attempt : Nat) : Nat := 2 ^ attempt

/-- The `for attempt in range(max_retries)` loop of `scrape_website`
(polling variant, lines 152-251).  `remaining` is the number of loop
iterations left (`max_retries - attempt`), so `remaining = 0` after the
last iteration falls through to the final `return None`, and
`remaining = 1` means `attempt == max_retries - 1`.  A successful attempt
returns its data; a failed attempt returns `None` immediately when its
error message is not retryable or the attempt was the last, and otherwise
sleeps `2 ** attempt` seconds and retries. -/
def scrape_loop (outcomes : Nat → AttemptOutcome) :
    Nat → Nat → ScrapeTrace
  | 0, _ => ⟨[], [], none⟩
  | remaining + 1, attempt =>
    let t := attempt_timeout attempt
    match outcomes attempt with
    | .ok d => ⟨[t], [], some d⟩
    | .fail msg =>
      if is_retryable msg = false ∨ remaining = 0 then
        ⟨[t], [], none⟩
      else
        let tr := scrape_loop outcomes remaining (attempt + 1)
        ⟨t :: tr.timeouts, backoff_seconds attempt :: tr.delays, tr.result⟩

/-- `scrape_website(url, max_retries=3)`: the retry loop entered with 3
iterations remaining at attempt index 0, as a function of the injected
attempt outcomes. -/
def scrape_website (outcomes : Nat → AttemptOutcome) : ScrapeTrace :=
  scrape_loop outcomes 3 0

/-! ### CRM write-back (`update_salesforce_lead`, polling variant) -/

/-- The extracted address sub-record; absent or `null` JSON values are
`none`. -/
structure Address where
  street : Option String := none
  city : Option String := none
  state : Option String := none
  postal_code : Option String := none
  country : Option String := none
  deriving DecidableEq, Repr

/-- The AI extraction output fields consulted by `update_salesforce_lead`. -/
structure ExtractedInfo where
  first_name : Option String := none
  last_name : Option String := none
  address : Option Address := none
  confidence : Option ℚ := none
  deriving DecidableEq, Repr

/-- A value placed in the Salesforce update map. -/
inductive SFValue
  | str (s : String)
  | num (q : ℚ)
  | flag (b : Bool)
  deriving DecidableEq, Repr

/-- The sentinel list `invalid_strings` inside `is_valid_value`
(`enrichment_worker.py` line 378). -/
def invalid_strings : List String :=
  ["not found", "unknown", "n/a", "none", "null", ""]

/-- Python's `str.strip()`: remove leading and trailing whitespace, on
code points. -/
def stripChars (cs : List Char) : List Char :=
  ((cs.dropWhile Char.isWhitespace).reverse.dropWhile Char.isWhitespace).reverse

/-- `value.lower().strip()` on code points. -/
def lowerStrip (s : String) : List Char :=
  stripChars (lowerChars s)

/-- `is_valid_value` (polling variant, lines 373-380): `None` and falsy
values are invalid; a string is valid iff its lowercased, stripped form is
not in `invalid_strings`. -/
def is_valid_value : Option String → Bool
  | none => false
  | some s =>
    if s = "" then false
    else !((invalid_strings.map String.toList).contains (lowerStrip s))

/-- The conditional pair of entries added for one extracted field: the
custom `Enriched_*__c` key first, then the standard CRM key, both included
only when the value passes `is_valid_value`. -/
def fieldEntries (v : Option String) (enrichedKey standardKey : String) :
    List (String × SFValue) :=
  match v with
  | some s =>
    if is_valid_value (some s) then
      [(enrichedKey, .str s), (standardKey, .str s)]
    else []
  | none => []

/-- One component of the `address_parts` list (lines 414-424): included
only when valid. -/
def partIf (v : Option String) : List String :=
  match v with
  | some s => if is_valid_value (some s) then [s] else []
  | none => []

/-- `address_parts` (lines 414-424): street, city, state, postal code,
country, in that fixed order, each only when valid. -/
def addr_parts (a : Address) : List String :=
  partIf a.street ++ partIf a.city ++ partIf a.state
    ++ partIf a.postal_code ++ partIf a.country

/-- The update map built by `update_salesforce_lead` (polling variant,
lines 359-437), as an association list in insertion order.  `now` stands
for the formatted `Enrichment_Date__c` timestamp string. -/
def update_salesforce_lead_data (info : ExtractedInfo) (now : String) :
    List (String × SFValue) :=
  let address := info.address.getD {}
  fieldEntries info.first_name "Enriched_First_Name__c" "FirstName"
  ++ fieldEntries info.last_name "Enriched_Last_Name__c" "LastName"
  ++ fieldEntries address.street "Enriched_Street__c" "Street"
  ++ fieldEntries address.city "Enriched_City__c" "City"
  ++ fieldEntries address.state "Enriched_State__c" "State"
  ++ fieldEntries address.postal_code "Enriched_Postal_Code__c" "PostalCode"
  ++ fieldEntries address.country "Enriched_Country__c" "Country"
  ++ (if addr_parts address ≠ [] then
        [("Enriched_Full_Address__c",
          SFValue.str (String.intercalate ", " (addr_parts address)))]
      else [])
  ++ [("Enrichment_Date__c", .str now),
      ("Enrichment_Confidence__c", .num (info.confidence.getD 0)),
      ("Enrichment_Source__c", .str "AI_Web_Scraping"),
      ("Enrichment_Completed__c", .flag true)]

/-- The keys present in the update map. -/
def update_keys (info : ExtractedInfo) (now : String) : List String :=
  (update_salesforce_lead_data info now).map Prod.fst

/-- The seven extracted fields written back to the CRM. -/
inductive SFField
  | firstName | lastName | street | city | state | postalCode | country
  deriving DecidableEq, Repr

/-- The extracted value feeding each field (the address sub-record
defaults to empty via `extracted_info.get('address') or {}`, line 392). -/
def field_value (info : ExtractedInfo) : SFField → Option String
  | .firstName => info.first_name
  | .lastName => info.last_name
  | .street => (info.address.getD {}).street
  | .city => (info.address.getD {}).city
  | .state => (info.address.getD {}).state
  | .postalCode => (info.address.getD {}).postal_code
  | .country => (info.address.getD {}).country

/-- The (standard, custom) key pair each field is written under. -/
def field_keys : SFField → String × String
  | .firstName => ("FirstName", "Enriched_First_Name__c")
  | .lastName => ("LastName", "Enriched_Last_Name__c")
  | .street => ("Street", "Enriched_Street__c")
  | .city => ("City", "Enriched_City__c")
  | .state => ("State", "Enriched_State__c")
  | .postalCode => ("PostalCode", "Enriched_Postal_Code__c")
  | .country => ("Country", "Enriched_Country__c")

/-! ### Polling main loop (`main`, `enrichment_worker.py` lines 464-561) -/

/-- The observable outcome of one long poll: no message, a message (whose
pipeline run succeeds or fails), or a raised polling error (caught, logged
and followed by a 5-second pause). -/
inductive PollEvent
  | empty
  | message (success : Bool)
  | pollError
  deriving DecidableEq, Repr

/-- The loop's environment configuration (lines 485-486). -/
structure LoopConfig where
  auto_shutdown_enabled : Bool
  idle_timeout_minutes : Nat
  deriving DecidableEq, Repr

/-- `MAX_IDLE_POLLS = IDLE_TIMEOUT_MINUTES * 3` (line 487). -/
def max_idle_polls (c : LoopConfig) : Nat := c.idle_timeout_minutes * 3

/-- Defaults: `AUTO_SHUTDOWN_ENABLED` is `'true'` and
`IDLE_TIMEOUT_MINUTES` is `'5'` when unset. -/
def defaultLoopConfig : LoopConfig := ⟨true, 5⟩

/-- Why a finite run of the loop stopped: the idle auto-shutdown `break`
fired, or the supplied poll outcomes ran out (the real loop would keep
polling forever in that case). -/
inductive ExitReason
  | idleShutdown
  | outOfEvents
  deriving DecidableEq, Repr

/-- A finite run: its exit reason and the number of polls consumed. -/
structure LoopRun where
  reason : ExitReason
  polls : Nat
  deriving DecidableEq, Repr

/-- The `while not shutdown` polling loop of `main` (lines 499-559) run
over a finite list of poll outcomes, with `idle` the current
`idle_poll_count`.  An empty poll increments the counter and the loop
breaks when auto-shutdown is enabled and the counter has reached
`MAX_IDLE_POLLS`; receiving a message resets the counter to zero; a
polling error leaves the counter unchanged. -/
def worker_loop (c : LoopConfig) : List PollEvent → Nat → LoopRun
  | [], _ => ⟨.outOfEvents, 0⟩
  | e :: rest, idle =>
    match e with
    | .empty =>
      if c.auto_shutdown_enabled ∧ idle + 1 ≥ max_idle_polls c then
        ⟨.idleShutdown, 1⟩
      else
        let r := worker_loop c rest (idle + 1)
        ⟨r.reason, r.polls + 1⟩
    | .message _ =>
      let r := worker_loop c rest 0
      ⟨r.reason, r.polls + 1⟩
    | .pollError =>
      let r := worker_loop c rest idle
      ⟨r.reason, r.polls + 1⟩

end Worker

/-! ## Storage normalization (`convert_floats_to_decimal`, identical in
both worker files, lines 21-30) -/

namespace Storage

mutual

/-- A Python value as passed to `convert_floats_to_decimal`: floats
(carrying their `str(f)` representation), `Decimal`s (carrying the string
they were constructed from), strings, ints, booleans, `None`, dicts and
lists. -/
inductive PyObj
  | pyFloat (repr : String)
  | pyDecimal (s : String)
  | pyStr (s : String)
  | pyInt (n : Int)
  | pyBool (b : Bool)
  | pyNone
  | pyDict (entries : PyEntries)
  | pyList (items : PyItems)

/-- The elements of a Python list, in order. -/
inductive PyItems
  | nil
  | cons (hd : PyObj) (tl : PyItems)

/-- The key/value pairs of a Python dict, in insertion order. -/
inductive PyEntries
  | nil
  | cons (key : String) (val : PyObj) (tl : PyEntries)

end

mutual

/-- `convert_floats_to_decimal(obj)`: a float becomes
`Decimal(str(obj))`; dicts and lists are rebuilt with converted values;
the final five cases are the source's `else: return obj` branch. -/
def convert_floats_to_decimal : PyObj → PyObj
  | .pyFloat r => .pyDecimal r
  | .pyDict es => .pyDict (convertEntries es)
  | .pyList xs => .pyList (convertItems xs)
  | .pyDecimal s => .pyDecimal s
  | .pyStr s => .pyStr s
  | .pyInt n => .pyInt n
  | .pyBool b => .pyBool b
  | .pyNone => .pyNone

/-- The list comprehension `[convert_floats_to_decimal(item) for item in obj]`. -/
def convertItems : PyItems → PyItems
  | .nil => .nil
  | .cons x xs => .cons (convert_floats_to_decimal x) (convertItems xs)

/-- The dict comprehension `{k: convert_floats_to_decimal(v) for k, v in obj.items()}`. -/
def convertEntries : PyEntries → PyEntries
  | .nil => .nil
  | .cons k v es => .cons k (convert_floats_to_decimal v) (convertEntries es)

end

mutual

/-- No float occurs anywhere in the value. -/
def noFloat : PyObj → Bool
  | .pyFloat _ => false
  | .pyDict es => noFloatEntries es
  | .pyList xs => noFloatItems xs
  | .pyDecimal _ => true
  | .pyStr _ => true
  | .pyInt _ => true
  | .pyBool _ => true
  | .pyNone => true

/-- No float occurs in any list element. -/
def noFloatItems : PyItems → Bool
  | .nil => true
  | .cons x xs => noFloat x && noFloatItems xs

/-- No float occurs in any dict value. -/
def noFloatEntries : PyEntries → Bool
  | .nil => true
  | .cons _ v es => noFloat v && noFloatEntries es

end

/-- The keys of a dict, in order. -/
def entryKeys : PyEntries → List String
  | .nil => []
  | .cons k _ es => k :: entryKeys es

/-- The length of a list value. -/
def itemsLength : PyItems → Nat
  | .nil => 0
  | .cons _ xs => itemsLength xs + 1

/-- Scalars other than floats: the values hitting the source's
`else: return obj` branch. -/
def isScalarNonFloat : PyObj → Bool
  | .pyDecimal _ => true
  | .pyStr _ => true
  | .pyInt _ => true
  | .pyBool _ => true
  | .pyNone => true
  | _ => false

end Storage

/-! ## Monitoring dashboard (`src/scripts/monitor.py`) -/

namespace Monitor

/-- `print_progress_bar(current, total)` from `scripts/monitor.py` lines
140-150, with the default `width=50`, returning (bar characters, percent).
The source computes `percent = int((current / total) * 100)` with float
arithmetic and `filled = int(width * current // total)` with integer
arithmetic; `percent` is modelled as exact floor division, which agrees
with the float computation at every input where the latter is exact (in
particular at the inputs evaluated below).  The `total == 0` guard of the
source is the `if` below, so no division by zero can occur. -/
def print_progress_bar (current total : Nat) : List Char × Nat :=
  let width := 50
  let percent := if total = 0 then 0 else current * 100 / total
  let filled := if 0 < total then width * current / total else 0
  (List.replicate filled '█' ++ List.replicate (width - filled) '░', percent)

end Monitor

end LeadEnrichment

namespace LeadEnrichment

open Orchestrator

/-- C4: the orchestrator's requested worker count is
`clamp(floor(queued_count/500), 2, 10)`, with the quoted instances and the
2..10 bounds holding for every queue size. -/
theorem requested_worker_count_is_clamp :
    (∀ queued_count : Nat,
        optimal_workers queued_count = min (max (queued_count / 500) 2) 10
        ∧ 2 ≤ optimal_workers queued_count
        ∧ optimal_workers queued_count ≤ 10)
    ∧ optimal_workers 50 = 2
    ∧ optimal_workers 3000 = 6
    ∧ optimal_workers 10000 = 10 := by
  refine ⟨fun q => ⟨?_, ?_, ?_⟩, by decide, by decide, by decide⟩
  · simp [optimal_workers, Nat.max_comm]
  · simp [optimal_workers]
  · simp [optimal_workers]

/-- C1 counterexample: with a successful fetch of 100 leads, all queue
sends succeeding, and the ECS `run_task` call raising, the orchestrator
still returns the 200 success payload with status `processing`; the job
record ends at status `processing` with no error text and the exception is
not re-raised — contradicting the claim that a compute-placement failure
marks the job `failed` and re-raises. -/
theorem compute_failure_counterexample :
    start_enrichment_job ⟨.ok 100, none, .raiseErr "ecs unavailable"⟩ =
      (.ok 200 "processing" 100 100 0,
       { status := .processing, leads_found := some 100,
         leads_queued := some 100, workers_started := some 0,
         error := none }) := by
  decide

/-- C1 amended: a worker-compute placement failure during job start is
caught inside `start_ecs_workers`, which returns 0; the job record is
updated to status `processing` with `workers_started = 0`, no error text is
recorded, and the orchestrator returns the success payload with status
`processing` (the error is never re-raised). -/
theorem compute_failure_is_swallowed (n : Nat) (msg : String) :
    start_enrichment_job ⟨.ok n, none, .raiseErr msg⟩ =
      (.ok 200 "processing" n n 0,
       { status := .processing, leads_found := some n,
         leads_queued := some n, workers_started := some 0,
         error := none }) := by
  simp [start_enrichment_job, start_ecs_workers]

/-- C2 counterexample: a direct (non-scheduled) invocation that omits
`limit` still produces a bounded query — `fetch_salesforce_leads` defaults
the limit to 10,000 and appends ` LIMIT 10000` — contradicting the claim
that no `LIMIT` clause is appended for such invocations. -/
theorem direct_invocation_limit_counterexample :
    appended_limit (extract_params (.direct none false)) = some 10000 := by
  decide

/-- C2 amended: for every direct invocation whose parameter object omits
`limit`, the lead fetch uses the default limit of 10,000 and appends
` LIMIT 10000` to the CRM query — the 10,000 default applies to direct
invocations as well as to scheduled ones. -/
theorem direct_invocation_uses_default_limit (u : Bool) :
    fetch_limit (extract_params (.direct none u)) = 10000
    ∧ appended_limit (extract_params (.direct none u)) = some 10000
    ∧ appended_limit (extract_params .scheduled) = some 10000 := by
  refine ⟨?_, ?_, ?_⟩ <;> simp [extract_params, fetch_limit, appended_limit]

open Worker

/-- The `all_content` fold is main content followed by the flattened
additional-page text. -/
theorem all_content_eq (d : ScrapedData) :
    all_content d = d.main_content ++ pagesBlob d.additional_pages := by
  unfold all_content
  generalize d.main_content = acc
  induction d.additional_pages generalizing acc with
  | nil => simp [pagesBlob]
  | cons p ps ih =>
    rw [List.foldl_cons, ih, pagesBlob, List.append_assoc]

/-- C3 counterexample: with a main page of exactly 3000 characters and one
additional page containing "SECRET", the prompt content is exactly the
main content — the additional page is cut off entirely — so the prompt is
not "first 3000 characters of main content followed by the full text of
every additional page" as claimed. -/
theorem truncation_counterexample :
    prompt_content ⟨[], List.replicate 3000 'a',
        [⟨[], ['S', 'E', 'C', 'R', 'E', 'T']⟩], 0⟩ = List.replicate 3000 'a'
    ∧ prompt_content ⟨[], List.replicate 3000 'a',
        [⟨[], ['S', 'E', 'C', 'R', 'E', 'T']⟩], 0⟩ ≠
      (List.replicate 3000 'a').take 3000 ++ '\n' :: '\n' ::
        ['S', 'E', 'C', 'R', 'E', 'T'] := by
  have hmain : prompt_content ⟨[], List.replicate 3000 'a',
      [⟨[], ['S', 'E', 'C', 'R', 'E', 'T']⟩], 0⟩ = List.replicate 3000 'a' := by
    rw [prompt_content, all_content_eq]
    show (List.replicate 3000 'a' ++
      pagesBlob [⟨[], ['S', 'E', 'C', 'R', 'E', 'T']⟩]).take 3000 = _
    rw [List.take_append_of_le_length (by rw [List.length_replicate]),
        List.take_replicate]
    norm_num
  refine ⟨hmain, ?_⟩
  intro hcl
  rw [hmain] at hcl
  have hlen := congrArg List.length hcl
  rw [List.length_replicate] at hlen
  rw [List.length_append, List.length_cons, List.length_cons,
      List.length_take, List.length_replicate] at hlen
  norm_num at hlen

/-- C3 amended: in both worker variants the 3000-character hard truncation
is applied to the concatenation of main content and all additional-page
content, so the prompt contains the first 3000 characters of the combined
text (never more than 3000 characters); when the main content alone
reaches 3000 characters, the additional pages are cut off entirely. -/
theorem truncation_applies_to_concatenation :
    (∀ d : ScrapedData,
        prompt_content d =
          (d.main_content ++ pagesBlob d.additional_pages).take 3000)
    ∧ (∀ d : ScrapedData, (prompt_content d).length ≤ 3000)
    ∧ (∀ d : ScrapedData, 3000 ≤ d.main_content.length →
        prompt_content d = d.main_content.take 3000) := by
  refine ⟨fun d => ?_, fun d => ?_, fun d h => ?_⟩
  · rw [prompt_content, all_content_eq]
  · rw [prompt_content]
    exact List.length_take_le 3000 (all_content d)
  · rw [prompt_content, all_content_eq, List.take_append_of_le_length h]

/-- Witness for the amended C3 theorem at a concrete scrape result whose
main content has exactly 3000 characters. -/
theorem truncation_applies_witness :
    prompt_content ⟨[], List.replicate 3000 'a',
        [⟨[], ['S', 'E', 'C', 'R', 'E', 'T']⟩], 0⟩
      = (List.replicate 3000 'a').take 3000 :=
  truncation_applies_to_concatenation.2.2
    ⟨[], List.replicate 3000 'a', [⟨[], ['S', 'E', 'C', 'R', 'E', 'T']⟩], 0⟩
    (by rw [List.length_replicate])

open Monitor

/-- C9: the dashboard progress-bar rendering is total on the modelled
inputs: done=25, total=100 renders 25% with exactly 12 of the 50 bar
characters filled; done=0, total=0 takes the guarded `total == 0` branch
and renders 0% with 0 characters filled and no division. -/
theorem progress_bar_rendering :
    print_progress_bar 25 100 =
      (List.replicate 12 '█' ++ List.replicate 38 '░', 25)
    ∧ (print_progress_bar 25 100).1.count '█' = 12
    ∧ (print_progress_bar 25 100).1.length = 50
    ∧ 12 = 50 * 25 / 100
    ∧ print_progress_bar 0 0 = (List.replicate 50 '░', 0)
    ∧ (print_progress_bar 0 0).1.count '█' = 0
    ∧ (print_progress_bar 0 0).1.length = 50 := by
  decide

/-- A lookup strictly under one elapsed day is fresh. -/
theorem cache_fresh_of_lt (T now : Int) (h0 : T ≤ now) (h : now - T < 86400) :
    cache_fresh T now = true := by
  unfold cache_fresh
  rw [Int.fdiv_eq_ediv _ (by norm_num)]
  simp only [decide_eq_true_eq]
  rw [Int.ediv_eq_zero_of_lt (by linarith) h]
  norm_num

/-- A lookup at or beyond one elapsed day is stale. -/
theorem cache_stale_of_ge (T now : Int) (h : 86400 ≤ now - T) :
    cache_fresh T now = false := by
  unfold cache_fresh
  rw [Int.fdiv_eq_ediv _ (by norm_num)]
  simp only [decide_eq_false_iff_not, not_lt]
  exact (Int.le_ediv_iff_mul_le (by norm_num)).mpr (by linarith)

/-- C6: a cache entry written at time `T` is returned — and no scrape is
performed — by any pipeline lookup strictly less than 24 hours after `T`;
a lookup at or after 24 hours of elapsed time treats the entry as stale
and triggers a new scrape, whose success overwrites (does not delete) the
entry, while a failed re-scrape leaves the old entry in place. -/
theorem cache_freshness_window :
    (∀ (c : ScrapedData) (T now : Int) (sr : Option ScrapedData),
        T ≤ now → now - T < 86400 →
        cache_step (some ⟨c, T⟩) now sr = ⟨false, some c, some ⟨c, T⟩⟩)
    ∧ (∀ (c d : ScrapedData) (T now : Int), 86400 ≤ now - T →
        cache_step (some ⟨c, T⟩) now (some d) =
          ⟨true, some d, some ⟨d, now⟩⟩)
    ∧ (∀ (c : ScrapedData) (T now : Int), 86400 ≤ now - T →
        cache_step (some ⟨c, T⟩) now none = ⟨true, none, some ⟨c, T⟩⟩) := by
  refine ⟨fun c T now sr h0 h => ?_, fun c d T now h => ?_,
    fun c T now h => ?_⟩
  · simp [cache_step, check_cache, cache_fresh_of_lt T now h0 h]
  · simp [cache_step, check_cache, cache_stale_of_ge T now h]
  · simp [cache_step, check_cache, cache_stale_of_ge T now h]

/-- Witness for the C6 theorem: an entry cached at `T = 0` is served at
`T + 23h59m = 86340` seconds without scraping, and at
`T + 24h01m = 86460` seconds a new scrape runs and overwrites it. -/
theorem cache_freshness_witness :
    cache_step (some ⟨⟨[], [], [], 0⟩, 0⟩) 86340 none =
      ⟨false, some ⟨[], [], [], 0⟩, some ⟨⟨[], [], [], 0⟩, 0⟩⟩
    ∧ cache_step (some ⟨⟨[], [], [], 0⟩, 0⟩) 86460 (some ⟨[], [], [], 1⟩) =
      ⟨true, some ⟨[], [], [], 1⟩, some ⟨⟨[], [], [], 1⟩, 86460⟩⟩ :=
  ⟨cache_freshness_window.1 ⟨[], [], [], 0⟩ 0 86340 none (by decide) (by decide),
   cache_freshness_window.2.1 ⟨[], [], [], 0⟩ ⟨[], [], [], 1⟩ 0 86460 (by decide)⟩

/-- C5: polling-variant scrape retry policy.  Per-attempt page-load
timeouts follow `20000 + attempt·10000` (20000 ms, 30000 ms, 40000 ms) and
the backoff schedule is `2^attempt` seconds (1 s, 2 s, 4 s); an attempt
failing with a non-retryable error message aborts immediately with no
content after that single attempt; retryable failures are retried up to 3
total attempts, sleeping the scheduled backoff between attempts (so a run
that exhausts all three attempts sleeps 1 s and then 2 s), and a retry
that succeeds returns the scraped content. -/
theorem scrape_retry_policy :
    (attempt_timeout 0 = 20000 ∧ attempt_timeout 1 = 30000
      ∧ attempt_timeout 2 = 40000)
    ∧ (backoff_seconds 0 = 1 ∧ backoff_seconds 1 = 2 ∧ backoff_seconds 2 = 4)
    ∧ (∀ (outcomes : Nat → AttemptOutcome) (msg : String),
        outcomes 0 = .fail msg → is_retryable msg = false →
        scrape_website outcomes = ⟨[20000], [], none⟩)
    ∧ (∀ (outcomes : Nat → AttemptOutcome) (m0 m1 m2 : String),
        outcomes 0 = .fail m0 → outcomes 1 = .fail m1 → outcomes 2 = .fail m2 →
        is_retryable m0 = true → is_retryable m1 = true →
        scrape_website outcomes = ⟨[20000, 30000, 40000], [1, 2], none⟩)
    ∧ (∀ (outcomes : Nat → AttemptOutcome) (m0 : String) (d : ScrapedData),
        outcomes 0 = .fail m0 → outcomes 1 = .ok d → is_retryable m0 = true →
        scrape_website outcomes = ⟨[20000, 30000], [1], some d⟩) := by
  refine ⟨⟨rfl, rfl, rfl⟩, ⟨rfl, rfl, rfl⟩, ?_, ?_, ?_⟩
  · intro outcomes msg h0 hr
    simp [scrape_website, scrape_loop, h0, hr, attempt_timeout]
  · intro outcomes m0 m1 m2 h0 h1 h2 hr0 hr1
    simp [scrape_website, scrape_loop, h0, h1, h2, hr0, hr1,
      attempt_timeout, backoff_seconds]
  · intro outcomes m0 d h0 h1 hr0
    simp [scrape_website, scrape_loop, h0, h1, hr0,
      attempt_timeout, backoff_seconds]

/-- Witness for the C5 theorem: a non-retryable message aborts after one
attempt, and a message containing "timeout" (case-insensitively) is
retried through all three attempts with timeouts 20000/30000/40000 ms and
backoff sleeps of 1 s and 2 s. -/
theorem scrape_retry_policy_witness :
    scrape_website (fun _ => .fail "page crashed") = ⟨[20000], [], none⟩
    ∧ scrape_website (fun _ => .fail "Timeout 20000ms exceeded") =
        ⟨[20000, 30000, 40000], [1, 2], none⟩ :=
  ⟨scrape_retry_policy.2.2.1 (fun _ => .fail "page crashed") "page crashed"
      rfl (by decide),
   scrape_retry_policy.2.2.2.1 (fun _ => .fail "Timeout 20000ms exceeded")
      "Timeout 20000ms exceeded" "Timeout 20000ms exceeded"
      "Timeout 20000ms exceeded" rfl rfl rfl (by decide) (by decide)⟩

/-- Key membership in one conditional field segment of the update map. -/
theorem mem_map_fst_fieldEntries (k : String) (v : Option String)
    (ek sk : String) :
    k ∈ (fieldEntries v ek sk).map Prod.fst ↔
      is_valid_value v = true ∧ (k = ek ∨ k = sk) := by
  cases v with
  | none => simp [fieldEntries, is_valid_value]
  | some s =>
    cases h : is_valid_value (some s) <;> simp [fieldEntries, h]

/-- Key membership in a conditional singleton segment of the update map. -/
theorem mem_map_fst_ite_single (k : String) (c : Prop) [Decidable c]
    (e : String × Worker.SFValue) :
    k ∈ (if c then [e] else []).map Prod.fst ↔ c ∧ k = e.1 := by
  by_cases h : c <;> simp [h]

/-- Each of the seven write-back fields has its two keys in the update map
exactly when its extracted value passes `is_valid_value`. -/
theorem field_key_mem_update_iff (info : ExtractedInfo) (now : String)
    (f : SFField) :
    ((field_keys f).1 ∈ update_keys info now ↔
        is_valid_value (field_value info f) = true)
    ∧ ((field_keys f).2 ∈ update_keys info now ↔
        is_valid_value (field_value info f) = true) := by
  cases f <;>
    refine ⟨?_, ?_⟩ <;>
      · simp only [update_keys, update_salesforce_lead_data, field_keys,
          field_value, List.map_append, List.mem_append,
          mem_map_fst_fieldEntries, mem_map_fst_ite_single, List.map_cons,
          List.map_nil, List.mem_cons, List.not_mem_nil]
        simp

/-- C7: polling-variant CRM write-back filtering.  Any extracted string
for one of the seven fields whose lowercased, trimmed form is one of the
sentinels `not found` / `unknown` / `n/a` / `none` / `null` / `""` is
excluded from the update map entirely (neither the standard nor the custom
key appears); a value such as "Jane" for the first name is included under
both `FirstName` and `Enriched_First_Name__c`. -/
theorem writeback_sentinel_filtering :
    (∀ (v : String), lowerStrip v ∈ invalid_strings.map String.toList →
      ∀ (info : ExtractedInfo) (now : String) (f : SFField),
        field_value info f = some v →
        (field_keys f).1 ∉ update_keys info now
        ∧ (field_keys f).2 ∉ update_keys info now)
    ∧ (∀ (info : ExtractedInfo) (now : String),
        info.first_name = some "Jane" →
        ("FirstName", Worker.SFValue.str "Jane") ∈
            update_salesforce_lead_data info now
        ∧ ("Enriched_First_Name__c", Worker.SFValue.str "Jane") ∈
            update_salesforce_lead_data info now) := by
  constructor
  · intro v hv info now f hf
    have hinv : is_valid_value (some v) = false := by
      by_cases he : v = ""
      · simp [is_valid_value, he]
      · simp [is_valid_value, he, List.contains]
        obtain ⟨a, ha, hae⟩ := List.mem_map.mp hv
        exact ⟨a, ha, hae⟩
    refine ⟨fun hk => ?_, fun hk => ?_⟩
    · have h := (field_key_mem_update_iff info now f).1.mp hk
      rw [hf, hinv] at h
      exact absurd h (by simp)
    · have h := (field_key_mem_update_iff info now f).2.mp hk
      rw [hf, hinv] at h
      exact absurd h (by simp)
  · intro info now hfn
    have hjv : is_valid_value (some "Jane") = true := by decide
    constructor <;>
      simp [update_salesforce_lead_data, fieldEntries, hfn, hjv,
        List.mem_append]

/-- Witness for the C7 theorem: "Not Found" as a first name leaves both
first-name keys out of the update map, while "Jane" is written under both
keys. -/
theorem writeback_sentinel_witness :
    ("FirstName" ∉
        update_keys { first_name := some "Not Found" } "2024-01-01T00:00:00.000Z"
      ∧ "Enriched_First_Name__c" ∉
        update_keys { first_name := some "Not Found" } "2024-01-01T00:00:00.000Z")
    ∧ (("FirstName", Worker.SFValue.str "Jane") ∈
        update_salesforce_lead_data { first_name := some "Jane" }
          "2024-01-01T00:00:00.000Z"
      ∧ ("Enriched_First_Name__c", Worker.SFValue.str "Jane") ∈
        update_salesforce_lead_data { first_name := some "Jane" }
          "2024-01-01T00:00:00.000Z") :=
  ⟨writeback_sentinel_filtering.1 "Not Found" (by decide)
      { first_name := some "Not Found" } "2024-01-01T00:00:00.000Z"
      SFField.firstName rfl,
   writeback_sentinel_filtering.2 { first_name := some "Jane" }
      "2024-01-01T00:00:00.000Z" rfl⟩

/-- With the default configuration, a block of empty polls whose last poll
brings the idle counter to 15 triggers the auto-shutdown `break`. -/
theorem worker_loop_idle_run (rest : List Worker.PollEvent) :
    ∀ (k idle : Nat), 0 < k → idle + k = 15 →
      worker_loop defaultLoopConfig
        (List.replicate k .empty ++ rest) idle = ⟨.idleShutdown, k⟩ := by
  intro k
  induction k with
  | zero => intro idle hpos _; omega
  | succ k ih =>
    intro idle hpos hsum
    rw [List.replicate_succ, List.cons_append]
    by_cases hk : k = 0
    · subst hk
      have hidle : idle = 14 := by omega
      subst hidle
      simp [worker_loop, defaultLoopConfig, max_idle_polls]
    · have hcond : ¬ (defaultLoopConfig.auto_shutdown_enabled = true
          ∧ idle + 1 ≥ max_idle_polls defaultLoopConfig) := by
        simp only [defaultLoopConfig, max_idle_polls]
        omega
      have hrec := ih (idle + 1) (by omega) (by omega)
      simp only [worker_loop]
      rw [if_neg hcond, hrec]

/-- With the default configuration, fewer empty polls than the threshold
never trigger the auto-shutdown. -/
theorem worker_loop_under_threshold :
    ∀ (n idle : Nat), idle + n < 15 →
      (worker_loop defaultLoopConfig
          (List.replicate n .empty) idle).reason = .outOfEvents := by
  intro n
  induction n with
  | zero => intro idle _; simp [worker_loop]
  | succ n ih =>
    intro idle h
    have hcond : ¬ (defaultLoopConfig.auto_shutdown_enabled = true
        ∧ idle + 1 ≥ max_idle_polls defaultLoopConfig) := by
      simp only [defaultLoopConfig, max_idle_polls]
      omega
    rw [List.replicate_succ]
    simp only [worker_loop]
    rw [if_neg hcond]
    exact ih (idle + 1) (by omega)

/-- With auto-shutdown disabled the loop never stops because of idleness,
whatever the poll outcomes and idle counter. -/
theorem worker_loop_no_idle_exit (m : Nat) :
    ∀ (events : List Worker.PollEvent) (idle : Nat),
      (worker_loop ⟨false, m⟩ events idle).reason = .outOfEvents := by
  intro events
  induction events with
  | nil => intro idle; simp [worker_loop]
  | cons e rest ih =>
    intro idle
    cases e with
    | empty => simp [worker_loop, ih]
    | message b => simp [worker_loop, ih]
    | pollError => simp [worker_loop, ih]

/-- C8: polling-loop idle auto-shutdown.  With the defaults (auto-shutdown
enabled, idle_timeout_minutes = 5, so a threshold of 15), the loop exits
by auto-shutdown after exactly 15 consecutive empty polls and not before;
receiving a message resets the idle counter to zero; with auto-shutdown
disabled the loop never exits due to idleness. -/
theorem idle_auto_shutdown :
    (∀ rest : List Worker.PollEvent,
        worker_loop defaultLoopConfig
          (List.replicate 15 .empty ++ rest) 0 = ⟨.idleShutdown, 15⟩)
    ∧ (∀ n : Nat, n < 15 →
        (worker_loop defaultLoopConfig
            (List.replicate n .empty) 0).reason = .outOfEvents)
    ∧ (∀ (c : LoopConfig) (b : Bool) (rest : List Worker.PollEvent)
          (idle : Nat),
        worker_loop c (.message b :: rest) idle =
          ⟨(worker_loop c rest 0).reason, (worker_loop c rest 0).polls + 1⟩)
    ∧ (∀ (m : Nat) (events : List Worker.PollEvent) (idle : Nat),
        (worker_loop ⟨false, m⟩ events idle).reason = .outOfEvents) :=
  ⟨fun rest => worker_loop_idle_run rest 15 0 (by omega) (by omega),
   fun n h => worker_loop_under_threshold n 0 (by omega),
   fun c b rest idle => by simp [worker_loop],
   worker_loop_no_idle_exit⟩

/-- Witness for the C8 theorem: 14 consecutive empty polls do not trigger
the auto-shutdown. -/
theorem idle_auto_shutdown_witness :
    (worker_loop defaultLoopConfig
        (List.replicate 14 .empty) 0).reason = .outOfEvents :=
  idle_auto_shutdown.2.1 14 (by decide)

open Storage

mutual

/-- The converted value contains no float anywhere. -/
theorem noFloat_convert : ∀ v : PyObj,
    noFloat (convert_floats_to_decimal v) = true
  | .pyFloat _ => rfl
  | .pyDecimal _ => rfl
  | .pyStr _ => rfl
  | .pyInt _ => rfl
  | .pyBool _ => rfl
  | .pyNone => rfl
  | .pyDict es => noFloatEntries_convert es
  | .pyList xs => noFloatItems_convert xs

/-- No converted list element contains a float. -/
theorem noFloatItems_convert : ∀ xs : PyItems,
    noFloatItems (convertItems xs) = true
  | .nil => rfl
  | .cons x xs => by
      show (noFloat (convert_floats_to_decimal x)
        && noFloatItems (convertItems xs)) = true
      rw [noFloat_convert x, noFloatItems_convert xs]
      rfl

/-- No converted dict value contains a float. -/
theorem noFloatEntries_convert : ∀ es : PyEntries,
    noFloatEntries (convertEntries es) = true
  | .nil => rfl
  | .cons _ v es => by
      show (noFloat (convert_floats_to_decimal v)
        && noFloatEntries (convertEntries es)) = true
      rw [noFloat_convert v, noFloatEntries_convert es]
      rfl

end

mutual

/-- The conversion is idempotent. -/
theorem convert_idem : ∀ v : PyObj,
    convert_floats_to_decimal (convert_floats_to_decimal v) =
      convert_floats_to_decimal v
  | .pyFloat _ => rfl
  | .pyDecimal _ => rfl
  | .pyStr _ => rfl
  | .pyInt _ => rfl
  | .pyBool _ => rfl
  | .pyNone => rfl
  | .pyDict es => congrArg PyObj.pyDict (convertEntries_idem es)
  | .pyList xs => congrArg PyObj.pyList (convertItems_idem xs)

/-- Idempotence on list elements. -/
theorem convertItems_idem : ∀ xs : PyItems,
    convertItems (convertItems xs) = convertItems xs
  | .nil => rfl
  | .cons x xs => by
      show PyItems.cons (convert_floats_to_decimal (convert_floats_to_decimal x))
          (convertItems (convertItems xs)) = _
      rw [convert_idem x, convertItems_idem xs]
      rfl

/-- Idempotence on dict entries. -/
theorem convertEntries_idem : ∀ es : PyEntries,
    convertEntries (convertEntries es) = convertEntries es
  | .nil => rfl
  | .cons k v es => by
      show PyEntries.cons k
          (convert_floats_to_decimal (convert_floats_to_decimal v))
          (convertEntries (convertEntries es)) = _
      rw [convert_idem v, convertEntries_idem es]
      rfl

end

/-- Dict keys are unchanged by the conversion. -/
theorem entryKeys_convert : ∀ es : PyEntries,
    entryKeys (convertEntries es) = entryKeys es
  | .nil => rfl
  | .cons k _ es => congrArg (fun l => k :: l) (entryKeys_convert es)

/-- List lengths are unchanged by the conversion. -/
theorem itemsLength_convert : ∀ xs : PyItems,
    itemsLength (convertItems xs) = itemsLength xs
  | .nil => rfl
  | .cons _ xs => congrArg (fun n => n + 1) (itemsLength_convert xs)

/-- C10: `convert_floats_to_decimal` (identical in both worker variants)
is total and structure-preserving: its output contains no float at any
depth, it is idempotent, every float becomes the decimal of its string
representation, dict keys and list lengths are unchanged, and every
non-float scalar is returned unchanged. -/
theorem convert_floats_to_decimal_properties :
    (∀ v : PyObj, noFloat (convert_floats_to_decimal v) = true)
    ∧ (∀ v : PyObj,
        convert_floats_to_decimal (convert_floats_to_decimal v) =
          convert_floats_to_decimal v)
    ∧ (∀ r : String,
        convert_floats_to_decimal (.pyFloat r) = .pyDecimal r)
    ∧ (∀ es : PyEntries, entryKeys (convertEntries es) = entryKeys es)
    ∧ (∀ xs : PyItems, itemsLength (convertItems xs) = itemsLength xs)
    ∧ (∀ v : PyObj, isScalarNonFloat v = true →
        convert_floats_to_decimal v = v) :=
  ⟨noFloat_convert, convert_idem, fun _ => rfl, entryKeys_convert,
   itemsLength_convert, fun v h => by
     cases v <;> first
       | rfl
       | exact absurd h (by simp [isScalarNonFloat])⟩

/-- Witness for the C10 theorem at a concrete non-float scalar. -/
theorem convert_floats_witness :
    convert_floats_to_decimal (.pyStr "acme") = .pyStr "acme" :=
  convert_floats_to_decimal_properties.2.2.2.2.2 (.pyStr "acme") rfl

end LeadEnrichment
